import Mathlib

set_option linter.unusedVariables false

/-!
Shallow embedding of the scene lifecycle and card-sprite machinery of
src/js/scenes.js (battle-puno).  JavaScript numbers holding frame counts,
counters and z-orders are modelled as Int; screen coordinates and
opacities (which carry fractional values) as Rat.  Stateful methods become
functions from the scene record to a new scene record.  All definitions
come first; the theorems about them follow.
-/

/-- A scene-owned UI widget ("window" / sprite child).  The fields mirror
the properties the source reads and writes on child objects: z order
(setZ), the saved z recorded by raiseOverlay (oriZ), the active flag
(activate/deactivate), visibility (show/hide), the lastActiveState
snapshot, the alwaysActive marker honoured by raiseOverlay, and the
disposed flag set by clear(true) and read by isDisposed().  JavaScript
object identity is modelled by the `wid` field: the source never compares
two distinct widget objects for equality other than by reference, and a
widget is pushed into both `_windows` and `children` by addWindow, so the
shared object is identified across the two lists by its `wid`. -/
structure Widget where
  wid : Nat := 0
  z : Int := 0
  oriZ : Int := 0
  active : Bool := false
  visible : Bool := false
  lastActiveState : Bool := false
  alwaysActive : Bool := false
  disposed : Bool := false
deriving DecidableEq, Repr

/-- State of Scene_Base (constructor, scenes.js lines 17-25, together with
the fields its methods write).  `windows` is the owned-widget list
`_windows`; `children` is the display list.  `buttonCooldown` models
`_buttonCooldown = new Array(0xff)`: absent entries read as 0 through the
source's `|| 0` guards, so the array is a total function defaulting to 0.
The opacity of the shared `Graphics.fadingSprite` is stored inline as
`fadingOpacity`, and its visibility as `fadingVisible`.  `dimShown`
records whether `Graphics.dimSprite` is rendered (raiseOverlay /
closeOverlay). -/
structure SceneBase where
  active : Bool := false
  windows : List Widget := []
  children : List Widget := []
  fadingFlag : Int := 0
  fadingTimer : Int := 0
  fadeSign : Int := 0
  fadingOpacity : ℚ := 0
  fadingVisible : Bool := false
  buttonCooldown : Nat → Int := fun _ => 0
  overlay : Option Nat := none
  dimShown : Bool := false

namespace Scene_Base

/-- JavaScript `duration || 30` (startFadeIn/startFadeOut): a missing or
zero argument falls back to 30 frames. -/
def fadeDurationDefault : Option Int → Int
  | none => 30
  | some v => if v = 0 then 30 else v

/-- startFadeIn (lines 141-147): shows the fading sprite, sets the fade
sign to +1, resets the timer to `duration || 30`, opacity to 1. -/
def startFadeIn (d : Option Int) (s : SceneBase) : SceneBase :=
  { s with fadingVisible := true, fadeSign := 1,
           fadingTimer := fadeDurationDefault d, fadingOpacity := 1 }

/-- startFadeOut (lines 149-155): shows the fading sprite, sets the fade
sign to -1, resets the timer to `duration || 30`, opacity to 0. -/
def startFadeOut (d : Option Int) (s : SceneBase) : SceneBase :=
  { s with fadingVisible := true, fadeSign := -1,
           fadingTimer := fadeDurationDefault d, fadingOpacity := 0 }

/-- onFadeComplete (lines 180-183): clears the fade flag and timer. -/
def onFadeComplete (s : SceneBase) : SceneBase :=
  { s with fadingFlag := 0, fadingTimer := 0 }

/-- The opacity assignment inside updateFading (lines 159-166): with
`d = _fadingTimer` and `opa` the current opacity, a positive fade sign
yields `opa - opa / d`, otherwise `opa + (1 - opa) / d`. -/
def fadeStepOpacity (s : SceneBase) : ℚ :=
  if 0 < s.fadeSign then s.fadingOpacity - s.fadingOpacity / (s.fadingTimer : ℚ)
  else s.fadingOpacity + (1 - s.fadingOpacity) / (s.fadingTimer : ℚ)

/-- updateFading (lines 157-169): returns unchanged when the timer is
not positive; otherwise applies the opacity step, decrements the timer,
and invokes onFadeComplete when the decremented timer reaches 0. -/
def updateFading (s : SceneBase) : SceneBase :=
  if s.fadingTimer ≤ 0 then s
  else if s.fadingTimer - 1 ≤ 0 then
    onFadeComplete { s with fadingOpacity := fadeStepOpacity s,
                            fadingTimer := s.fadingTimer - 1 }
  else { s with fadingOpacity := fadeStepOpacity s,
                fadingTimer := s.fadingTimer - 1 }

/-- updateChildren (lines 35-43) forwards update() to each child display
object; a child's own per-frame update mutates only that child's internal
display state (sprite textures, window contents), never any Scene_Base
field, so on the modelled scene record it is the identity. -/
def updateChildren (s : SceneBase) : SceneBase := s

/-- Scene_Base.update (lines 30-33): updateFading then updateChildren. -/
def update (s : SceneBase) : SceneBase := updateChildren (updateFading s)

/-- Scene_Base.isBusy (lines 47-49): the scene is busy while the fade
timer is positive. -/
def isBusy (s : SceneBase) : Bool := decide (0 < s.fadingTimer)

/-- heatupButton (lines 240-242): sets the pressed key's cooldown
counter to 4. -/
def heatupButton (s : SceneBase) (kid : Nat) : SceneBase :=
  { s with buttonCooldown := fun k => if k = kid then 4 else s.buttonCooldown k }

/-- isButtonCooled (lines 244-246): `(cooldown[kid] || 0) == 0` — the key
is cooled exactly when its counter reads 0 (absent entries read 0). -/
def isButtonCooled (s : SceneBase) (kid : Nat) : Bool :=
  decide (s.buttonCooldown kid = 0)

/-- addWindow (lines 206-217): refuses (with a logged console error, no
throw) when the scene is inactive and the call is not forced, or when the
window is already disposed; otherwise pushes the window into the
owned-window list and the display list.  The returned Bool reports
whether an error was logged. -/
def addWindow (s : SceneBase) (win : Widget) (forced : Bool) : SceneBase × Bool :=
  if !s.active && !forced then (s, true)
  else if win.disposed then (s, true)
  else ({ s with windows := s.windows ++ [win], children := s.children ++ [win] }, false)

/-- disposeWindowAt (lines 93-101): a negative index only logs an error;
otherwise `_windows[index].clear(true)` disposes the window object and
`splice(index, 1)` removes that entry from the owned list.  The same
object also sits in the display list, so the disposal is mirrored into
`children` via the shared `wid`.  (An index beyond the list, which would
crash in JS on `undefined.clear`, never occurs at the source's call
sites; it is modelled as a no-op.) -/
def disposeWindowAt (s : SceneBase) (index : Int) : SceneBase :=
  if index ≤ -1 then s
  else match s.windows.get? index.toNat with
    | none => s
    | some w =>
      { s with windows := s.windows.eraseIdx index.toNat,
               children := s.children.map
                 (fun c => if c.wid = w.wid then { c with disposed := true } else c) }

/-- The loop of disposeAllWindows (lines 79-81):
`for(let i=0;i<this._windows.length;++i){ this.disposeWindowAt(i); }`,
where the length is re-read every iteration and disposeWindowAt shortens
the list.  `fuel` is set by the caller to the entry length of `_windows`,
an upper bound on the iteration count: every executed iteration both
increments `i` and removes one entry, so the guard `i < length` fails
after at most half the entry length iterations. -/
def disposeAllLoop : Nat → Nat → SceneBase → SceneBase
  | 0, _, s => s
  | fuel + 1, i, s =>
    if i < s.windows.length then disposeAllLoop fuel (i + 1) (disposeWindowAt s (i : Int))
    else s

/-- disposeAllWindows (lines 78-83): runs the dispose loop, then assigns
`this._windows = []`. -/
def disposeAllWindows (s : SceneBase) : SceneBase :=
  { disposeAllLoop s.windows.length 0 s with windows := [] }

/-- terminate (lines 57-60): logs and disposes all owned windows. -/
def terminate (s : SceneBase) : SceneBase := disposeAllWindows s

/-- The per-child effect of raiseOverlay (lines 248-263) on a widget of
the display list, in source order: first the overlay widget records its z
into oriZ and is raised to z 0x111; then the forEach skips alwaysActive
children and, for every other child that is not the overlay itself,
snapshots its active flag into lastActiveState and deactivates it;
finally the overlay widget is shown and activated. -/
def raiseStep (oid : Nat) (w : Widget) : Widget :=
  let w1 := if w.wid = oid then { w with oriZ := w.z, z := 0x111 } else w
  let w2 := if w1.alwaysActive then w1
            else if w1.wid = oid then w1
            else { w1 with lastActiveState := w1.active, active := false }
  if w2.wid = oid then { w2 with visible := true, active := true } else w2

/-- raiseOverlay (lines 248-263): a missing widget is a no-op; otherwise
the overlay slot is set, every child receives the raiseStep effect, and
the dim sprite is rendered. -/
def raiseOverlay (s : SceneBase) (ov : Option Nat) : SceneBase :=
  match ov with
  | none => s
  | some oid =>
    { s with overlay := some oid, dimShown := true,
             children := s.children.map (raiseStep oid) }

/-- The per-child effect of closeOverlay (lines 265-277), in source
order: the overlay widget is hidden and deactivated; then the forEach
activates every other child whose lastActiveState snapshot is set;
finally the overlay widget's z is restored from oriZ. -/
def closeStep (oid : Nat) (w : Widget) : Widget :=
  let w1 := if w.wid = oid then { w with visible := false, active := false } else w
  let w2 := if w1.wid ≠ oid ∧ w1.lastActiveState then { w1 with active := true } else w1
  if w2.wid = oid then { w2 with z := w2.oriZ } else w2

/-- closeOverlay (lines 265-277): a no-op when no overlay is active;
otherwise every child receives the closeStep effect, the dim sprite is
removed and the overlay slot is cleared. -/
def closeOverlay (s : SceneBase) : SceneBase :=
  match s.overlay with
  | none => s
  | some oid =>
    { s with overlay := none, dimShown := false,
             children := s.children.map (closeStep oid) }

end Scene_Base

namespace Scene_Load

/-- Scene_Load.updateButtonCooldown (lines 384-390): for every key index
below 0xff, a positive counter is decremented by one. -/
def updateButtonCooldown (s : SceneBase) : SceneBase :=
  { s with buttonCooldown := fun k =>
      if k < 255 ∧ 0 < s.buttonCooldown k then s.buttonCooldown k - 1
      else s.buttonCooldown k }

/-- Scene_Load.update (lines 346-351): the base update, then the loading
animation, the cooldown decrement and the progress bar.  updateLoading
and updateProgressBar write only Scene_Load display fields (loading
sprite, text, bar), none of the Scene_Base fields modelled here. -/
def update (s : SceneBase) : SceneBase :=
  updateButtonCooldown (Scene_Base.update s)

end Scene_Load

/-- A pooled card sprite (createCardSprite, lines 885-897): pool index,
index in the owner's hand (`handIndex`, -1 when not in a hand), owner tag
(`playerIndex`: -2 unassigned, -1 in play, otherwise a player id),
visibility, position and z order. -/
structure CardSprite where
  index : Nat := 0
  handIndex : Int := -1
  playerIndex : Int := -2
  visible : Bool := false
  x : ℚ := 0
  y : ℚ := 0
  z : Int := 0
deriving DecidableEq, Repr

/-- State of Scene_Game (constructor lines 784-790) on top of Scene_Base:
the sprite-pool size counter (initially 116), the outstanding-animation
counter, the player-phase flag, the sprite pool, and the deck sprite's
rectangle (set from Graphics metrics in createDeckSprite; kept abstract
here as four rationals). -/
structure SceneGame extends SceneBase where
  cardSpritePoolSize : Int := 116
  animationCount : Int := 0
  playerPhase : Bool := false
  spritePool : List CardSprite := []
  deckX : ℚ := 0
  deckY : ℚ := 0
  deckW : ℚ := 0
  deckH : ℚ := 0

namespace Scene_Game

/-- Scene_Game.isAnimationPlaying (lines 1269-1271): the outstanding
animation counter is nonzero. -/
def isAnimationPlaying (s : SceneGame) : Bool := decide (s.animationCount ≠ 0)

/-- Scene_Game.isPlayerThinking (lines 1273-1275): the local player is
mid-decision. -/
def isPlayerThinking (s : SceneGame) : Bool := s.playerPhase

/-- Scene_Game.isBusy (lines 1265-1267): the base fade predicate, or an
animation in flight, or the player thinking. -/
def isBusy (s : SceneGame) : Bool :=
  Scene_Base.isBusy s.toSceneBase || isAnimationPlaying s || isPlayerThinking s

/-- The counter effect at the start of addDiscardCard (line 1007):
`this.animationCount += 1` is executed once, synchronously, when the
play-card animation is dispatched.  The sprite rotation and motion are
carried out by the renderer and do not touch the scene record. -/
def addDiscardCardStart (s : SceneGame) : SceneGame :=
  { s with animationCount := s.animationCount + 1 }

/-- The counter effect of addDiscardCard's completion callback
(lines 1008-1013): `this.animationCount -= 1` is executed once when the
moveto animation arrives.  Reparenting the sprite into the discard pile
touches only display objects, not the scene's counters. -/
def addDiscardCardComplete (s : SceneGame) : SceneGame :=
  { s with animationCount := s.animationCount - 1 }

/-- createCardSprite (lines 885-897): a fresh hidden card sprite whose
pool index is the current pool length, unassigned (playerIndex -2), not
in any hand (handIndex -1), placed at the centre of the deck sprite
with z 0x11. -/
def createCardSprite (s : SceneGame) : CardSprite :=
  { index := s.spritePool.length, handIndex := -1, playerIndex := -2,
    visible := false, x := s.deckX + s.deckW / 2, y := s.deckY + s.deckH / 2,
    z := 0x11 }

/-- The push loop of createCardSpritePool (lines 880-882), iterated k
times: each pass appends one fresh sprite. -/
def createPoolLoop : Nat → SceneGame → SceneGame
  | 0, s => s
  | k + 1, s => createPoolLoop k { s with spritePool := s.spritePool ++ [createCardSprite s] }

/-- createCardSpritePool (lines 877-883): resets the pool and pushes
cardSpritePoolSize fresh sprites. -/
def createCardSpritePool (s : SceneGame) : SceneGame :=
  createPoolLoop s.cardSpritePoolSize.toNat { s with spritePool := [] }

/-- getIdleCardSprite (lines 865-875): linear scan for the first sprite
with owner tag -2; if none is found, the pool-size counter is
incremented and a fresh sprite is appended to the pool.  Returns the new
scene state and the acquired sprite. -/
def getIdleCardSprite (s : SceneGame) : SceneGame × CardSprite :=
  match s.spritePool.find? (fun sp => sp.playerIndex == -2) with
  | some sp => (s, sp)
  | none =>
    let sp := createCardSprite s
    ({ s with cardSpritePoolSize := s.cardSpritePoolSize + 1,
              spritePool := s.spritePool ++ [sp] }, sp)

/-- sendCardToDeck (lines 1191-1197) as it acts on the released card's
sprite: the owner tag is set to -2, the sprite is hidden and moved back
to the deck centre.  (The removeChild on the hand canvas detaches the
sprite from that display container; it writes no sprite field.)  Note
that the source does not write handIndex here. -/
def sendCardToDeck (s : SceneGame) (sp : CardSprite) : CardSprite :=
  { sp with playerIndex := -2, visible := false,
            x := s.deckX + s.deckW / 2, y := s.deckY + s.deckH / 2 }

/-- The pool's free-sprite pose (spec section 3): owner tag unassigned,
hidden, at the deck's anchor position. -/
def isIdlePose (s : SceneGame) (sp : CardSprite) : Prop :=
  sp.playerIndex = -2 ∧ sp.visible = false ∧
  sp.x = s.deckX + s.deckW / 2 ∧ sp.y = s.deckY + s.deckH / 2

/-- JavaScript `parseFloat(x.toFixed(3))` (line 951): rounding to three
decimal places.  (toFixed rounds ties away from zero, Mathlib's round
rounds ties up; the two agree on all nonnegative values and everywhere
off a tie.) -/
def round3 (q : ℚ) : ℚ := (round (q * 1000) : ℤ) / 1000

/-- stackPortion (line 951): the fractional overlap between adjacent
stacked cards, `((canvasWidth - cardWidth) / (cardSize * cardWidth))`
rounded to three decimals, where cardSize is the hand's card count. -/
def stackPortion (canvasWidth cardWidth : ℚ) (cardSize : ℕ) : ℚ :=
  round3 ((canvasWidth - cardWidth) / ((cardSize : ℚ) * cardWidth))

/-- totalWidth (line 952): `cardWidth + cardWidth*stackPortion*(cardSize-1)`. -/
def totalWidth (canvasWidth cardWidth : ℚ) (cardSize : ℕ) : ℚ :=
  cardWidth + cardWidth * stackPortion canvasWidth cardWidth cardSize * ((cardSize : ℚ) - 1)

/-- base_pos (line 954): the group is centred, `(canvasWidth - totalWidth)/2`. -/
def base_pos (canvasWidth cardWidth : ℚ) (cardSize : ℕ) : ℚ :=
  (canvasWidth - totalWidth canvasWidth cardWidth cardSize) / 2

/-- The stacking-axis coordinate of card i in arrangeHandCards
(lines 959 and 972, identical formula for both axis orientations):
`base_pos + cardWidth * stackPortion * i + cardWidth / 2`. -/
def handCardAxisPos (canvasWidth cardWidth : ℚ) (cardSize i : ℕ) : ℚ :=
  base_pos canvasWidth cardWidth cardSize
    + cardWidth * stackPortion canvasWidth cardWidth cardSize * (i : ℚ) + cardWidth / 2

end Scene_Game

/-- Modelled from the spec: the card colour enum (`Color`) is defined
outside src/ in the rule-engine module; only its five member names appear
in scenes.js.  Concrete pairwise-distinct integer values are chosen. -/
def Color.RED : Int := 0

/-- Modelled from the spec: see Color.RED. -/
def Color.BLUE : Int := 1

/-- Modelled from the spec: see Color.RED. -/
def Color.YELLOW : Int := 2

/-- Modelled from the spec: see Color.RED. -/
def Color.GREEN : Int := 3

/-- Modelled from the spec: see Color.RED. -/
def Color.WILD : Int := 4

/-- Modelled from the spec: the card value enum (`Value`) is defined
outside src/.  Number cards carry their face value 0..9 (getCardImage's
default branch appends the numeric value itself), and the special values
are distinct integers above 9 (getCardImage appends a numID suffix
exactly when `card.value > 9`). -/
def Value.REVERSE : Int := 10

/-- Modelled from the spec: see Value.REVERSE. -/
def Value.SKIP : Int := 11

/-- Modelled from the spec: see Value.REVERSE. -/
def Value.DRAW_TWO : Int := 12

/-- Modelled from the spec: see Value.REVERSE. -/
def Value.WILD_DRAW_FOUR : Int := 13

/-- Modelled from the spec: see Value.REVERSE. -/
def Value.WILD : Int := 14

/-- Modelled from the spec: see Value.REVERSE. -/
def Value.TRADE : Int := 15

/-- Modelled from the spec: see Value.REVERSE. -/
def Value.WILD_HIT_ALL : Int := 16

/-- Modelled from the spec: see Value.REVERSE. -/
def Value.DISCARD_ALL : Int := 17

/-- Modelled from the spec: see Value.REVERSE. -/
def Value.WILD_CHAOS : Int := 18

/-- A card descriptor as consumed by getCardImage: colour, value and
numeric id (used to pick among alternative artworks). -/
structure Card where
  color : Int
  value : Int
  numID : Int
deriving DecidableEq, Repr

/-- The value switch and numID suffix of getCardImage (lines 1215-1237),
given the already-resolved colour prefix: the nine special values append
their names, every other value falls through to the default branch that
appends the numeric value itself; a special value (`> 9`) with positive
numID gets an artwork suffix. -/
def cardImageValueSymbol (card : Card) (c : String) : String :=
  let v : String :=
    if card.value = Value.REVERSE then "Reverse"
    else if card.value = Value.SKIP then "Ban"
    else if card.value = Value.DRAW_TWO then "Plus2"
    else if card.value = Value.WILD_DRAW_FOUR then "Plus4"
    else if card.value = Value.WILD then "Wild"
    else if card.value = Value.TRADE then "Exchange"
    else if card.value = Value.WILD_HIT_ALL then "Hit"
    else if card.value = Value.DISCARD_ALL then "Discard"
    else if card.value = Value.WILD_CHAOS then "Chaos"
    else toString card.value
  let sym := c ++ v
  if 9 < card.value ∧ 0 < card.numID then sym ++ "_" ++ toString (card.numID + 1)
  else sym

/-- getCardImage (lines 1199-1239): resolves the image-symbol key for a
card.  An unrecognised colour throws
`new Error("Invalid card color: " + card.color)`, modelled as
Except.error; every recognised colour completes and returns the symbol
key (the final `Graphics[symbol]` lookup resolves that key in the asset
registry). -/
def getCardImage (card : Card) : Except String String :=
  if card.color = Color.RED then Except.ok (cardImageValueSymbol card "Red")
  else if card.color = Color.BLUE then Except.ok (cardImageValueSymbol card "Blue")
  else if card.color = Color.YELLOW then Except.ok (cardImageValueSymbol card "Yellow")
  else if card.color = Color.GREEN then Except.ok (cardImageValueSymbol card "Green")
  else if card.color = Color.WILD then Except.ok (cardImageValueSymbol card "Wild")
  else Except.error ("Invalid card color: " ++ toString card.color)

/-- The freshly constructed gameplay scene (Scene_Game constructor,
lines 784-790): counter 116, no animation in flight, not the player's
turn, empty pool before create() runs. -/
def initSceneGame : SceneGame := {}

/-- A started scene that owns two windows (wids 0 and 1), built through
addWindow on an active scene exactly as the source does (the same widget
lands in both the owned list and the display list). -/
def twoWindowScene : SceneBase :=
  (Scene_Base.addWindow
    (Scene_Base.addWindow { active := true } { wid := 0 } false).1
    { wid := 1 } false).1

/-- A scene holding one always-active child that is currently inactive
but still carries a stale lastActiveState snapshot from an earlier
pause/overlay cycle. -/
def staleOverlayScene : SceneBase :=
  { children := [{ wid := 1, active := false, lastActiveState := true,
                   alwaysActive := true }] }

/-- A scene with an active sibling (wid 1) and a hidden overlay widget
(wid 2), as in the title screen's dialog flow. -/
def overlayDemoScene : SceneBase :=
  { children := [{ wid := 1, z := 5, active := true, visible := true },
                 { wid := 2, z := 2, active := false, visible := false }] }

namespace Scene_Base

lemma update_eq_updateFading : update = updateFading := rfl

/-- Field view of one updateFading tick while the timer is positive:
the opacity takes the geometric step, the timer drops by one (the
completion hook re-writes the already-zero value), the sign is kept, and
when the timer was 1 the completion hook clears the fade flag. -/
lemma updateFading_of_pos (s : SceneBase) (h : 0 < s.fadingTimer) :
    (updateFading s).fadingOpacity = fadeStepOpacity s ∧
    (updateFading s).fadingTimer = s.fadingTimer - 1 ∧
    (updateFading s).fadeSign = s.fadeSign ∧
    (s.fadingTimer = 1 → (updateFading s).fadingFlag = 0) := by
  unfold updateFading onFadeComplete
  split_ifs with h1 h2
  · omega
  · refine ⟨rfl, by simp; omega, rfl, fun _ => rfl⟩
  · refine ⟨rfl, rfl, rfl, fun h3 => by omega⟩

/-- While the timer is not positive, updateFading is the identity. -/
lemma updateFading_of_nonpos (s : SceneBase) (h : s.fadingTimer ≤ 0) :
    updateFading s = s := by
  unfold updateFading
  simp [h]

/-- Exact completion of a fade-in: from sign +1 and timer n+1, after n+1
ticks the opacity is exactly 0 and the flag and timer are cleared. -/
lemma fadeIn_terminal (n : ℕ) : ∀ s : SceneBase, s.fadeSign = 1 →
    s.fadingTimer = (n : ℤ) + 1 →
    (updateFading^[n + 1] s).fadingOpacity = 0 ∧
    (updateFading^[n + 1] s).fadingTimer = 0 ∧
    (updateFading^[n + 1] s).fadingFlag = 0 := by
  induction n with
  | zero =>
    intro s hs ht
    rw [Function.iterate_one]
    have h : 0 < s.fadingTimer := by omega
    obtain ⟨ho, htm, hsg, hfl⟩ := updateFading_of_pos s h
    refine ⟨?_, by omega, hfl (by omega)⟩
    rw [ho]
    unfold fadeStepOpacity
    rw [if_pos (by rw [hs]; norm_num), ht]
    norm_num
  | succ n ih =>
    intro s hs ht
    rw [Function.iterate_succ_apply]
    have h : 0 < s.fadingTimer := by omega
    obtain ⟨ho, htm, hsg, _⟩ := updateFading_of_pos s h
    exact ih (updateFading s) (by rw [hsg, hs]) (by rw [htm, ht]; push_cast; ring)

/-- Exact completion of a fade-out: from sign -1 and timer n+1, after n+1
ticks the opacity is exactly 1 and the flag and timer are cleared. -/
lemma fadeOut_terminal (n : ℕ) : ∀ s : SceneBase, s.fadeSign = -1 →
    s.fadingTimer = (n : ℤ) + 1 →
    (updateFading^[n + 1] s).fadingOpacity = 1 ∧
    (updateFading^[n + 1] s).fadingTimer = 0 ∧
    (updateFading^[n + 1] s).fadingFlag = 0 := by
  induction n with
  | zero =>
    intro s hs ht
    rw [Function.iterate_one]
    have h : 0 < s.fadingTimer := by omega
    obtain ⟨ho, htm, hsg, hfl⟩ := updateFading_of_pos s h
    refine ⟨?_, by omega, hfl (by omega)⟩
    rw [ho]
    unfold fadeStepOpacity
    rw [if_neg (by rw [hs]; norm_num), ht]
    norm_num
  | succ n ih =>
    intro s hs ht
    rw [Function.iterate_succ_apply]
    have h : 0 < s.fadingTimer := by omega
    obtain ⟨ho, htm, hsg, _⟩ := updateFading_of_pos s h
    exact ih (updateFading s) (by rw [hsg, hs]) (by rw [htm, ht]; push_cast; ring)

/-- One tick of a fade-in keeps the sign, keeps opacity nonnegative and
never increases it. -/
lemma fadeIn_inv_step (s : SceneBase) (hs : s.fadeSign = 1)
    (h0 : 0 ≤ s.fadingOpacity) :
    (updateFading s).fadeSign = 1 ∧ 0 ≤ (updateFading s).fadingOpacity ∧
    (updateFading s).fadingOpacity ≤ s.fadingOpacity := by
  by_cases h : s.fadingTimer ≤ 0
  · rw [updateFading_of_nonpos s h]
    exact ⟨hs, h0, le_refl _⟩
  · push_neg at h
    obtain ⟨ho, _, hsg, _⟩ := updateFading_of_pos s h
    have hd1 : (1 : ℚ) ≤ (s.fadingTimer : ℚ) := by exact_mod_cast h
    have hstep : fadeStepOpacity s =
        s.fadingOpacity - s.fadingOpacity / (s.fadingTimer : ℚ) := by
      unfold fadeStepOpacity
      rw [if_pos (by rw [hs]; norm_num)]
    refine ⟨by rw [hsg, hs], ?_, ?_⟩
    · rw [ho, hstep]
      have := div_le_self h0 hd1
      linarith
    · rw [ho, hstep]
      have := div_nonneg h0 (by linarith : (0 : ℚ) ≤ (s.fadingTimer : ℚ))
      linarith

/-- One tick of a fade-out keeps the sign, keeps opacity at most 1 and
never decreases it. -/
lemma fadeOut_inv_step (s : SceneBase) (hs : s.fadeSign = -1)
    (h1 : s.fadingOpacity ≤ 1) :
    (updateFading s).fadeSign = -1 ∧ (updateFading s).fadingOpacity ≤ 1 ∧
    s.fadingOpacity ≤ (updateFading s).fadingOpacity := by
  by_cases h : s.fadingTimer ≤ 0
  · rw [updateFading_of_nonpos s h]
    exact ⟨hs, h1, le_refl _⟩
  · push_neg at h
    obtain ⟨ho, _, hsg, _⟩ := updateFading_of_pos s h
    have hd1 : (1 : ℚ) ≤ (s.fadingTimer : ℚ) := by exact_mod_cast h
    have hstep : fadeStepOpacity s =
        s.fadingOpacity + (1 - s.fadingOpacity) / (s.fadingTimer : ℚ) := by
      unfold fadeStepOpacity
      rw [if_neg (by rw [hs]; norm_num)]
    refine ⟨by rw [hsg, hs], ?_, ?_⟩
    · rw [ho, hstep]
      have := div_le_self (by linarith : (0 : ℚ) ≤ 1 - s.fadingOpacity) hd1
      linarith
    · rw [ho, hstep]
      have := div_nonneg (by linarith : (0 : ℚ) ≤ 1 - s.fadingOpacity)
        (by linarith : (0 : ℚ) ≤ (s.fadingTimer : ℚ))
      linarith

/-- The fade-in invariant (sign +1, opacity nonnegative) holds along
every iterate of updateFading. -/
lemma fadeIn_inv_iter (k : ℕ) (s : SceneBase) (hs : s.fadeSign = 1)
    (h0 : 0 ≤ s.fadingOpacity) :
    (updateFading^[k] s).fadeSign = 1 ∧ 0 ≤ (updateFading^[k] s).fadingOpacity := by
  induction k with
  | zero => exact ⟨hs, h0⟩
  | succ k ih =>
    rw [Function.iterate_succ_apply']
    obtain ⟨a, b, _⟩ := fadeIn_inv_step _ ih.1 ih.2
    exact ⟨a, b⟩

/-- The fade-out invariant (sign -1, opacity at most 1) holds along
every iterate of updateFading. -/
lemma fadeOut_inv_iter (k : ℕ) (s : SceneBase) (hs : s.fadeSign = -1)
    (h1 : s.fadingOpacity ≤ 1) :
    (updateFading^[k] s).fadeSign = -1 ∧ (updateFading^[k] s).fadingOpacity ≤ 1 := by
  induction k with
  | zero => exact ⟨hs, h1⟩
  | succ k ih =>
    rw [Function.iterate_succ_apply']
    obtain ⟨a, b, _⟩ := fadeOut_inv_step _ ih.1 ih.2
    exact ⟨a, b⟩

end Scene_Base

open Scene_Base in
/-- Claim C1: a fade started by startFadeIn(d) or startFadeOut(d) and
driven only by repeated update() ticks moves the fading sprite's opacity
monotonically toward its target (0 for fade-in, 1 for fade-out) on every
tick, and at the tick the timer reaches 0 the opacity equals the target
exactly and the fade flag and timer are cleared. -/
theorem C1_fade_monotone_exact_completion (s : SceneBase) (d : Option Int)
    (k : ℕ) (hd : 0 < fadeDurationDefault d) :
    ((update^[k + 1] (startFadeIn d s)).fadingOpacity ≤
       (update^[k] (startFadeIn d s)).fadingOpacity) ∧
    ((update^[(fadeDurationDefault d).toNat] (startFadeIn d s)).fadingOpacity = 0 ∧
     (update^[(fadeDurationDefault d).toNat] (startFadeIn d s)).fadingTimer = 0 ∧
     (update^[(fadeDurationDefault d).toNat] (startFadeIn d s)).fadingFlag = 0) ∧
    ((update^[k] (startFadeOut d s)).fadingOpacity ≤
       (update^[k + 1] (startFadeOut d s)).fadingOpacity) ∧
    ((update^[(fadeDurationDefault d).toNat] (startFadeOut d s)).fadingOpacity = 1 ∧
     (update^[(fadeDurationDefault d).toNat] (startFadeOut d s)).fadingTimer = 0 ∧
     (update^[(fadeDurationDefault d).toNat] (startFadeOut d s)).fadingFlag = 0) := by
  rw [update_eq_updateFading]
  have hsi : (startFadeIn d s).fadeSign = 1 := rfl
  have hso : (startFadeOut d s).fadeSign = -1 := rfl
  have hoi : (0 : ℚ) ≤ (startFadeIn d s).fadingOpacity := by norm_num [startFadeIn]
  have hoo : (startFadeOut d s).fadingOpacity ≤ 1 := by norm_num [startFadeOut]
  have hti : (startFadeIn d s).fadingTimer = fadeDurationDefault d := rfl
  have hto : (startFadeOut d s).fadingTimer = fadeDurationDefault d := rfl
  have hT : ((fadeDurationDefault d).toNat - 1) + 1 = (fadeDurationDefault d).toNat := by
    omega
  refine ⟨?_, ?_, ?_, ?_⟩
  · rw [Function.iterate_succ_apply']
    obtain ⟨a, b⟩ := fadeIn_inv_iter k _ hsi hoi
    exact (fadeIn_inv_step _ a b).2.2
  · rw [← hT]
    exact fadeIn_terminal _ _ hsi (by rw [hti]; omega)
  · rw [Function.iterate_succ_apply']
    obtain ⟨a, b⟩ := fadeOut_inv_iter k _ hso hoo
    exact (fadeOut_inv_step _ a b).2.2
  · rw [← hT]
    exact fadeOut_terminal _ _ hso (by rw [hto]; omega)

/-- Witness for C1 at a concrete fade of duration 2, inspected after each
of the two ticks. -/
theorem C1_fade_witness :
    0 < Scene_Base.fadeDurationDefault (some 2) ∧
    ((Scene_Base.update^[1] (Scene_Base.startFadeIn (some 2) {})).fadingOpacity ≤
       (Scene_Base.update^[0] (Scene_Base.startFadeIn (some 2) {})).fadingOpacity) ∧
    ((Scene_Base.update^[(Scene_Base.fadeDurationDefault (some 2)).toNat]
        (Scene_Base.startFadeIn (some 2) {})).fadingOpacity = 0 ∧
     (Scene_Base.update^[(Scene_Base.fadeDurationDefault (some 2)).toNat]
        (Scene_Base.startFadeIn (some 2) {})).fadingTimer = 0 ∧
     (Scene_Base.update^[(Scene_Base.fadeDurationDefault (some 2)).toNat]
        (Scene_Base.startFadeIn (some 2) {})).fadingFlag = 0) ∧
    ((Scene_Base.update^[0] (Scene_Base.startFadeOut (some 2) {})).fadingOpacity ≤
       (Scene_Base.update^[1] (Scene_Base.startFadeOut (some 2) {})).fadingOpacity) ∧
    ((Scene_Base.update^[(Scene_Base.fadeDurationDefault (some 2)).toNat]
        (Scene_Base.startFadeOut (some 2) {})).fadingOpacity = 1 ∧
     (Scene_Base.update^[(Scene_Base.fadeDurationDefault (some 2)).toNat]
        (Scene_Base.startFadeOut (some 2) {})).fadingTimer = 0 ∧
     (Scene_Base.update^[(Scene_Base.fadeDurationDefault (some 2)).toNat]
        (Scene_Base.startFadeOut (some 2) {})).fadingFlag = 0) :=
  ⟨by decide, C1_fade_monotone_exact_completion {} (some 2) 0 (by decide)⟩

open Scene_Game in
/-- Claim C2: Scene_Game.isBusy() is true exactly when the fade timer is
nonzero, or the outstanding-animation counter is nonzero, or the local
player is mid-decision; and from a quiescent state a single play-card
animation drives the counter 0 to 1 at start and back to 0 on
completion, with isBusy() reflecting the transition. -/
theorem C2_isBusy_predicate_and_transition (s : SceneGame)
    (ht : 0 ≤ s.fadingTimer) :
    (isBusy s = true ↔
      (s.fadingTimer ≠ 0 ∨ s.animationCount ≠ 0 ∨ s.playerPhase = true)) ∧
    (s.fadingTimer = 0 → s.animationCount = 0 → s.playerPhase = false →
      isBusy s = false ∧
      (addDiscardCardStart s).animationCount = 1 ∧
      isBusy (addDiscardCardStart s) = true ∧
      (addDiscardCardComplete (addDiscardCardStart s)).animationCount = 0 ∧
      isBusy (addDiscardCardComplete (addDiscardCardStart s)) = false) := by
  constructor
  · simp only [isBusy, Scene_Base.isBusy, isAnimationPlaying, isPlayerThinking,
      Bool.or_eq_true, decide_eq_true_eq]
    constructor
    · rintro ((h | h) | h)
      · exact Or.inl (by omega)
      · exact Or.inr (Or.inl h)
      · exact Or.inr (Or.inr h)
    · rintro (h | h | h)
      · exact Or.inl (Or.inl (by omega))
      · exact Or.inl (Or.inr h)
      · exact Or.inr h
  · intro h1 h2 h3
    refine ⟨?_, ?_, ?_, ?_, ?_⟩ <;>
      simp [isBusy, Scene_Base.isBusy, isAnimationPlaying, isPlayerThinking,
        addDiscardCardStart, addDiscardCardComplete, h1, h2, h3]

/-- Witness for C2 on the freshly constructed gameplay scene. -/
theorem C2_isBusy_witness :
    0 ≤ initSceneGame.fadingTimer ∧
    (Scene_Game.isBusy initSceneGame = false ∧
     (Scene_Game.addDiscardCardStart initSceneGame).animationCount = 1 ∧
     Scene_Game.isBusy (Scene_Game.addDiscardCardStart initSceneGame) = true ∧
     (Scene_Game.addDiscardCardComplete
        (Scene_Game.addDiscardCardStart initSceneGame)).animationCount = 0 ∧
     Scene_Game.isBusy (Scene_Game.addDiscardCardComplete
        (Scene_Game.addDiscardCardStart initSceneGame)) = false) :=
  ⟨by decide,
   (C2_isBusy_predicate_and_transition initSceneGame (by decide)).2 rfl rfl rfl⟩

/-- Claim C3, evaluated at the failing input (a scene owning two
windows): terminate() does empty the owned-widget list, but it disposes
only the window at original index 0 — the forward loop of
disposeAllWindows increments i while disposeWindowAt splices the list,
so the entry that slid into index 0 (the second window, wid 1) is never
cleared.  The claim that every one of the n owned widgets is disposed is
violated by the code. -/
theorem C3_terminate_skips_second_window :
    (Scene_Base.terminate twoWindowScene).windows = [] ∧
    (Scene_Base.terminate twoWindowScene).children.map
      (fun w => (w.wid, w.disposed)) = [(0, true), (1, false)] := by
  decide

open Scene_Game in
/-- Claim C4: the hand-layout computation places card i at
`basePosition + cardSize*overlapFraction*i + cardSize/2` along the
stacking axis, with overlapFraction, totalStackWidth and basePosition as
specified, and for hand size 3, canvasSpan 350, cardSize 50 it yields
overlapFraction 2.0, totalStackWidth 250 and basePosition 50. -/
theorem C4_hand_layout_formula (cw cdw : ℚ) (n i : ℕ) (hn : 1 ≤ n) :
    handCardAxisPos cw cdw n i =
      (cw - (cdw + cdw * round3 ((cw - cdw) / ((n : ℚ) * cdw)) * ((n : ℚ) - 1))) / 2
        + cdw * round3 ((cw - cdw) / ((n : ℚ) * cdw)) * (i : ℚ) + cdw / 2 ∧
    stackPortion 350 50 3 = 2 ∧
    totalWidth 350 50 3 = 250 ∧
    base_pos 350 50 3 = 50 := by
  refine ⟨rfl, ?_, ?_, ?_⟩ <;>
    norm_num [stackPortion, totalWidth, base_pos, round3, round_eq]

/-- Witness for C4 at the specified scenario (hand size 3, first card). -/
theorem C4_hand_layout_witness :
    1 ≤ 3 ∧
    (Scene_Game.handCardAxisPos 350 50 3 0 =
      (350 - (50 + 50 * Scene_Game.round3 ((350 - 50) / ((3 : ℚ) * 50)) * ((3 : ℚ) - 1))) / 2
        + 50 * Scene_Game.round3 ((350 - 50) / ((3 : ℚ) * 50)) * ((0 : ℕ) : ℚ) + 50 / 2 ∧
     Scene_Game.stackPortion 350 50 3 = 2 ∧
     Scene_Game.totalWidth 350 50 3 = 250 ∧
     Scene_Game.base_pos 350 50 3 = 50) :=
  ⟨by decide, C4_hand_layout_formula 350 50 3 0 (by decide)⟩

/-- Counterexample to claim C5 as stated: a sprite released while
carrying hand-index 3 keeps that hand-index, because sendCardToDeck
(lines 1191-1197) writes playerIndex, visibility and position but never
writes handIndex.  The claim's "hand-index is cleared to -1" fails. -/
theorem C5_sendCardToDeck_counterexample :
    (Scene_Game.sendCardToDeck initSceneGame
      { index := 0, handIndex := 3, playerIndex := 0, visible := true,
        x := 0, y := 0, z := 0 }).handIndex = 3 ∧
    ¬ (Scene_Game.sendCardToDeck initSceneGame
      { index := 0, handIndex := 3, playerIndex := 0, visible := true,
        x := 0, y := 0, z := 0 }).handIndex = -1 := by
  decide

open Scene_Game in
/-- Claim C5 amended: whenever a sprite is released back to the pool
(sendCardToDeck), its owner tag is set to unassigned (-2), the sprite is
hidden and its position is reset to the deck's anchor pose,
re-establishing the free-list pose that an unassigned sprite is hidden
at the anchor; the hand-index is left unchanged (not written) — it is -1
in every state this source produces, since no code in the file ever
assigns any other value to it. -/
theorem C5_sendCardToDeck_release (s : SceneGame) (sp : CardSprite) :
    (sendCardToDeck s sp).playerIndex = -2 ∧
    (sendCardToDeck s sp).visible = false ∧
    (sendCardToDeck s sp).x = s.deckX + s.deckW / 2 ∧
    (sendCardToDeck s sp).y = s.deckY + s.deckH / 2 ∧
    (sendCardToDeck s sp).handIndex = sp.handIndex ∧
    isIdlePose s (sendCardToDeck s sp) :=
  ⟨rfl, rfl, rfl, rfl, rfl, rfl, rfl, rfl, rfl⟩

/-- Counterexample to claim C6 as stated: claimed for every scene, the
frame update decrements a nonzero cooldown counter — but
Scene_Base.update (lines 30-33) only runs updateFading and
updateChildren, so after heatupButton(0) a Scene_Base tick leaves the
counter at 4, not 3.  Only Scene_Load wires updateButtonCooldown into
its update. -/
theorem C6_cooldown_counterexample :
    (Scene_Base.update (Scene_Base.heatupButton {} 0)).buttonCooldown 0 = 4 ∧
    ¬ (Scene_Base.update (Scene_Base.heatupButton {} 0)).buttonCooldown 0 = 3 := by
  constructor
  · rfl
  · decide

open Scene_Base Scene_Load in
/-- Claim C6 amended: heatupButton(k) sets k's cooldown counter to the
small positive value 4; in Scene_Load (the one scene that wires
updateButtonCooldown into its frame update) each update decrements a
positive counter by exactly one and leaves a zero counter at zero; and
isButtonCooled(k) returns true exactly when the counter is zero, the
state in which the debounced action is permitted. -/
theorem C6_cooldown_decrement (s : SceneBase) (k : Nat) (hk : k < 255) :
    (heatupButton s k).buttonCooldown k = 4 ∧
    (0 < s.buttonCooldown k →
      (Scene_Load.update s).buttonCooldown k = s.buttonCooldown k - 1) ∧
    (s.buttonCooldown k = 0 → (Scene_Load.update s).buttonCooldown k = 0) ∧
    (isButtonCooled s k = true ↔ s.buttonCooldown k = 0) := by
  have hcd : (Scene_Base.update s).buttonCooldown = s.buttonCooldown := by
    rw [update_eq_updateFading]
    unfold updateFading onFadeComplete
    split_ifs <;> rfl
  refine ⟨by simp [heatupButton], ?_, ?_, by simp [isButtonCooled]⟩
  · intro h
    unfold Scene_Load.update Scene_Load.updateButtonCooldown
    simp only [hcd]
    rw [if_pos ⟨hk, h⟩]
  · intro h
    unfold Scene_Load.update Scene_Load.updateButtonCooldown
    simp only [hcd]
    rw [if_neg (by omega)]
    exact h

/-- Witness for C6 on key 0 of a fresh scene: heat-up writes 4, a
Scene_Load tick keeps an already-zero counter at zero, and the key
reports cooled. -/
theorem C6_cooldown_witness :
    (0 : Nat) < 255 ∧
    (Scene_Base.heatupButton {} 0).buttonCooldown 0 = 4 ∧
    (Scene_Load.update {}).buttonCooldown 0 = 0 ∧
    Scene_Base.isButtonCooled {} 0 = true :=
  ⟨by decide,
   (C6_cooldown_decrement {} 0 (by decide)).1,
   (C6_cooldown_decrement {} 0 (by decide)).2.2.1 rfl,
   ((C6_cooldown_decrement {} 0 (by decide)).2.2.2).2 rfl⟩

/-- Counterexample to claim C7 as stated: in a scene with no overlay
whose only child is always-active, currently inactive, but still
carrying a stale lastActiveState snapshot, the round trip
raiseOverlay(w); closeOverlay() activates that sibling (raiseOverlay
skips always-active children, but closeOverlay's restore pass activates
every non-overlay child whose snapshot flag is set), so its
active/inactive state is not restored to the pre-raise value. -/
theorem C7_overlay_counterexample :
    staleOverlayScene.overlay = none ∧
    staleOverlayScene.children.map Widget.active = [false] ∧
    (Scene_Base.closeOverlay
      (Scene_Base.raiseOverlay staleOverlayScene (some 2))).children.map
        Widget.active = [true] := by
  decide

namespace Scene_Base

/-- The per-widget round trip: for any widget whose stale-snapshot state
is consistent (an always-active widget with its snapshot flag set is
itself active), closeStep after raiseStep preserves the wid, and for a
non-overlay widget restores the active flag and the z order. -/
lemma overlay_roundtrip_widget (oid : Nat) (w : Widget)
    (hw : w.alwaysActive = true → w.lastActiveState = true → w.active = true) :
    (closeStep oid (raiseStep oid w)).wid = w.wid ∧
    (w.wid ≠ oid → (closeStep oid (raiseStep oid w)).active = w.active ∧
                   (closeStep oid (raiseStep oid w)).z = w.z) := by
  by_cases h1 : w.wid = oid
  · refine ⟨?_, fun h => absurd h1 h⟩
    simp [raiseStep, closeStep, h1]
  · obtain ⟨wid, z, oriZ, act, vis, last, alw, disp⟩ := w
    simp only [Widget.mk.injEq] at h1 ⊢
    cases alw with
    | false =>
      cases act <;> simp [raiseStep, closeStep, h1]
    | true =>
      cases last with
      | false => simp [raiseStep, closeStep, h1]
      | true =>
        have hact : act = true := hw rfl rfl
        subst hact
        simp [raiseStep, closeStep, h1]

/-- Pointwise description of mapping a function over a list, packaged as
Forall₂. -/
lemma forall₂_of_map {R : Widget → Widget → Prop} (f : Widget → Widget) :
    ∀ l : List Widget, (∀ x ∈ l, R x (f x)) → List.Forall₂ R l (l.map f) := by
  intro l
  induction l with
  | nil => intro _; exact List.Forall₂.nil
  | cons a t ih =>
    intro h
    rw [List.map_cons]
    exact List.Forall₂.cons (h a (List.mem_cons_self a t))
      (ih fun x hx => h x (List.mem_cons_of_mem a hx))

end Scene_Base

open Scene_Base in
/-- Claim C7 amended: for every scene with no overlay active in which
every always-active child carrying a set lastActiveState snapshot is
itself active (the snapshots are not stale), the sequence
raiseOverlay(w); closeOverlay() restores every sibling child's
active/inactive state and z-order to its pre-raise value; and calling
raiseOverlay with no widget, or closeOverlay when no overlay is active,
changes no state. -/
theorem C7_overlay_roundtrip (s : SceneBase) (oid : Nat)
    (hov : s.overlay = none)
    (hsane : ∀ w ∈ s.children,
      w.alwaysActive = true → w.lastActiveState = true → w.active = true) :
    List.Forall₂ (fun w w' => w'.wid = w.wid ∧
        (w.wid ≠ oid → w'.active = w.active ∧ w'.z = w.z))
      s.children (closeOverlay (raiseOverlay s (some oid))).children ∧
    raiseOverlay s none = s ∧
    closeOverlay s = s := by
  refine ⟨?_, rfl, ?_⟩
  · have hchild : (closeOverlay (raiseOverlay s (some oid))).children
        = s.children.map (fun w => closeStep oid (raiseStep oid w)) := by
      show (s.children.map (raiseStep oid)).map (closeStep oid)
          = s.children.map (fun w => closeStep oid (raiseStep oid w))
      rw [List.map_map]
      rfl
    rw [hchild]
    exact forall₂_of_map _ s.children
      (fun x hx => overlay_roundtrip_widget oid x (hsane x hx))
  · show (match s.overlay with
      | none => s
      | some oid => { s with overlay := none, dimShown := false,
                             children := s.children.map (closeStep oid) }) = s
    rw [hov]

/-- Witness for C7 on a scene with an active sibling (wid 1) and the
overlay widget wid 2. -/
theorem C7_overlay_witness :
    overlayDemoScene.overlay = none ∧
    (∀ w ∈ overlayDemoScene.children,
      w.alwaysActive = true → w.lastActiveState = true → w.active = true) ∧
    List.Forall₂ (fun w w' => w'.wid = w.wid ∧
        (w.wid ≠ 2 → w'.active = w.active ∧ w'.z = w.z))
      overlayDemoScene.children
      (Scene_Base.closeOverlay
        (Scene_Base.raiseOverlay overlayDemoScene (some 2))).children ∧
    Scene_Base.raiseOverlay overlayDemoScene none = overlayDemoScene ∧
    Scene_Base.closeOverlay overlayDemoScene = overlayDemoScene :=
  ⟨rfl, by decide,
   (C7_overlay_roundtrip overlayDemoScene 2 rfl (by decide)).1,
   (C7_overlay_roundtrip overlayDemoScene 2 rfl (by decide)).2.1,
   (C7_overlay_roundtrip overlayDemoScene 2 rfl (by decide)).2.2⟩

open Scene_Base in
/-- Claim C8: addWidget(w, forced) on an inactive scene with
forced=false, or with an already-disposed w, reports an error and
returns with the scene state unchanged (no throw); otherwise w is
appended to the owned-widget list and added as a child. -/
theorem C8_addWindow_error_handling (s : SceneBase) (win : Widget) (forced : Bool) :
    ((s.active = false ∧ forced = false) ∨ win.disposed = true →
      addWindow s win forced = (s, true)) ∧
    ((s.active = true ∨ forced = true) → win.disposed = false →
      addWindow s win forced =
        ({ s with windows := s.windows ++ [win], children := s.children ++ [win] },
         false)) := by
  constructor
  · rintro (⟨ha, hf⟩ | hd)
    · unfold addWindow
      rw [ha, hf]
      rfl
    · unfold addWindow
      rw [hd]
      split_ifs with h1 h2
      · rfl
      · rfl
      · exact absurd rfl h2
  · intro hact hd
    unfold addWindow
    rw [hd]
    rcases hact with h | h
    · rw [h]
      simp
    · rw [h]
      simp

/-- Witness for C8: on a fresh (inactive) scene an unforced add is
rejected with the state unchanged, and a forced add of an undisposed
window appends it to both lists. -/
theorem C8_addWindow_witness :
    Scene_Base.addWindow {} { wid := 7 } false = ({}, true) ∧
    (Scene_Base.addWindow {} { wid := 7 } true).1.windows = [{ wid := 7 }] ∧
    (Scene_Base.addWindow {} { wid := 7 } true).1.children = [{ wid := 7 }] ∧
    (Scene_Base.addWindow {} { wid := 7 } true).2 = false :=
  ⟨(C8_addWindow_error_handling {} { wid := 7 } false).1 (Or.inl ⟨rfl, rfl⟩),
   by rw [(C8_addWindow_error_handling {} { wid := 7 } true).2 (Or.inr rfl) rfl] <;> rfl,
   by rw [(C8_addWindow_error_handling {} { wid := 7 } true).2 (Or.inr rfl) rfl] <;> rfl,
   by rw [(C8_addWindow_error_handling {} { wid := 7 } true).2 (Or.inr rfl) rfl] <;> rfl⟩

/-- Counterexample to claim C9 as stated: a card with a recognised colour
and the unrecognised value 999 (none of the nine special value constants,
nor a face value) does not raise — getCardImage's value switch has no
throwing default: the default branch appends the numeric value itself,
and the call completes with the symbol "Red999". -/
theorem C9_getCardImage_counterexample :
    getCardImage { color := Color.RED, value := 999, numID := 0 } =
      Except.ok "Red999" ∧
    ((999 : Int) ≠ Value.REVERSE ∧ (999 : Int) ≠ Value.SKIP ∧
     (999 : Int) ≠ Value.DRAW_TWO ∧ (999 : Int) ≠ Value.WILD_DRAW_FOUR ∧
     (999 : Int) ≠ Value.WILD ∧ (999 : Int) ≠ Value.TRADE ∧
     (999 : Int) ≠ Value.WILD_HIT_ALL ∧ (999 : Int) ≠ Value.DISCARD_ALL ∧
     (999 : Int) ≠ Value.WILD_CHAOS) ∧
    ¬ (999 : Int) ≤ 9 := by
  exact ⟨rfl, by decide, by decide⟩

/-- Claim C9 amended: during image-symbol resolution (getCardImage) an
unrecognised card colour is fatal — the raised error propagates to the
caller — but an unrecognised card value is not: it falls into the value
switch's numeric default branch (the one that renders face values) and
the operation completes with a symbol. -/
theorem C9_getCardImage_color_fatal (card : Card) :
    (card.color ≠ Color.RED → card.color ≠ Color.BLUE →
     card.color ≠ Color.YELLOW → card.color ≠ Color.GREEN →
     card.color ≠ Color.WILD →
      getCardImage card =
        Except.error ("Invalid card color: " ++ toString card.color)) ∧
    ((card.color = Color.RED ∨ card.color = Color.BLUE ∨
      card.color = Color.YELLOW ∨ card.color = Color.GREEN ∨
      card.color = Color.WILD) →
      ∃ sym, getCardImage card = Except.ok sym) := by
  constructor
  · intro h1 h2 h3 h4 h5
    unfold getCardImage
    rw [if_neg h1, if_neg h2, if_neg h3, if_neg h4, if_neg h5]
  · intro h
    unfold getCardImage
    rcases h with h | h | h | h | h <;> rw [h] <;> simp [Color.RED, Color.BLUE,
      Color.YELLOW, Color.GREEN, Color.WILD]

/-- Witness for C9: colour 6 is none of the five colours and is rejected
with an error; a red 7 resolves to a symbol. -/
theorem C9_getCardImage_witness :
    getCardImage { color := 6, value := 0, numID := 0 } =
      Except.error ("Invalid card color: " ++ toString (6 : Int)) ∧
    (∃ sym, getCardImage { color := Color.RED, value := 7, numID := 0 } =
      Except.ok sym) :=
  ⟨(C9_getCardImage_color_fatal { color := 6, value := 0, numID := 0 }).1
      (by decide) (by decide) (by decide) (by decide) (by decide),
   (C9_getCardImage_color_fatal { color := Color.RED, value := 7, numID := 0 }).2
      (Or.inl rfl)⟩

namespace Scene_Game

/-- The pool-construction loop appends exactly k sprites and leaves the
size counter alone. -/
lemma createPoolLoop_length (k : ℕ) : ∀ s : SceneGame,
    (createPoolLoop k s).spritePool.length = s.spritePool.length + k ∧
    (createPoolLoop k s).cardSpritePoolSize = s.cardSpritePoolSize := by
  induction k with
  | zero => intro s; simp [createPoolLoop]
  | succ k ih =>
    intro s
    unfold createPoolLoop
    obtain ⟨a, b⟩ := ih { s with spritePool := s.spritePool ++ [createCardSprite s] }
    constructor
    · rw [a]; simp; omega
    · rw [b]

end Scene_Game

open Scene_Game in
/-- Claim C10: the counter cardSpritePoolSize always equals the pool
length: construction creates exactly 116 sprites, an acquire on an
exhausted pool (no sprite with owner tag -2) grows both the counter and
the pool by exactly one, an acquire on a non-exhausted pool changes
neither, and the pool never shrinks. -/
theorem C10_pool_size_invariant (s : SceneGame)
    (hinv : s.cardSpritePoolSize = (s.spritePool.length : Int)) :
    ((createCardSpritePool initSceneGame).spritePool.length = 116 ∧
     (createCardSpritePool initSceneGame).cardSpritePoolSize = 116) ∧
    ((getIdleCardSprite s).1.cardSpritePoolSize =
      ((getIdleCardSprite s).1.spritePool.length : Int)) ∧
    (s.spritePool.length ≤ (getIdleCardSprite s).1.spritePool.length) ∧
    (s.spritePool.find? (fun sp => sp.playerIndex == -2) = none →
      (getIdleCardSprite s).1.cardSpritePoolSize = s.cardSpritePoolSize + 1 ∧
      (getIdleCardSprite s).1.spritePool.length = s.spritePool.length + 1) ∧
    (s.spritePool.find? (fun sp => sp.playerIndex == -2) ≠ none →
      (getIdleCardSprite s).1 = s) := by
  have hcreate := createPoolLoop_length (116 : ℕ)
    { initSceneGame with spritePool := [] }
  refine ⟨⟨?_, ?_⟩, ?_, ?_, ?_, ?_⟩
  · show (createPoolLoop ((116 : Int).toNat) _).spritePool.length = 116
    rw [(by decide : ((116 : Int).toNat) = (116 : ℕ))]
    rw [(hcreate).1]
    rfl
  · show (createPoolLoop ((116 : Int).toNat) _).cardSpritePoolSize = 116
    rw [(by decide : ((116 : Int).toNat) = (116 : ℕ))]
    rw [(hcreate).2]
    rfl
  · unfold getIdleCardSprite
    cases hf : s.spritePool.find? (fun sp => sp.playerIndex == -2) with
    | some sp => simpa using hinv
    | none => simp; omega
  · unfold getIdleCardSprite
    cases hf : s.spritePool.find? (fun sp => sp.playerIndex == -2) with
    | some sp => simp
    | none => simp
  · intro hf
    unfold getIdleCardSprite
    rw [hf]
    simp
  · intro hf
    unfold getIdleCardSprite
    cases hf2 : s.spritePool.find? (fun sp => sp.playerIndex == -2) with
    | some sp => rfl
    | none => exact absurd hf2 hf

/-- Witness for C10 on a scene whose counter matches its (empty) pool:
the exhausted scan grows both the counter and the pool to 1. -/
theorem C10_pool_witness :
    ({ initSceneGame with cardSpritePoolSize := 0 } : SceneGame).cardSpritePoolSize =
      (({ initSceneGame with cardSpritePoolSize := 0 } : SceneGame).spritePool.length : Int) ∧
    ((Scene_Game.getIdleCardSprite
        { initSceneGame with cardSpritePoolSize := 0 }).1.cardSpritePoolSize =
      ((Scene_Game.getIdleCardSprite
        { initSceneGame with cardSpritePoolSize := 0 }).1.spritePool.length : Int)) ∧
    ((Scene_Game.getIdleCardSprite
        { initSceneGame with cardSpritePoolSize := 0 }).1.spritePool.length = 1) :=
  ⟨by decide,
   (C10_pool_size_invariant { initSceneGame with cardSpritePoolSize := 0 }
      (by decide)).2.1,
   ((C10_pool_size_invariant { initSceneGame with cardSpritePoolSize := 0 }
      (by decide)).2.2.2.1 (by decide)).2⟩
